import Mathlib

/-!
Shallow embedding of the PDF-annotator backend (Express/Mongoose):
  src/routes/pdfs.js        (the two routers: pdf routes and annotation routes)
  src/models/Annotation.js  (annotation schema and its style defaults)
  src/unnamed/part_000      (the PDF schema)
  src/middleware/upload.js  (multer configuration and its error handler)

Users, documents and annotations are identified by natural numbers.
JavaScript free-form objects (the annotation content) are embedded as
association lists of string keys; the JS spread operator and Mongoose
schema defaults are given explicit executable definitions. Each Express
route handler becomes a pure function from its inputs (the relevant
database state, the authenticated or anonymous caller, the request body)
to an HTTP status code paired with the post-state.
-/

set_option maxHeartbeats 1000000

/-- Role of an authenticated user, from the auth model referenced by the
routes via req.user.role. -/
inductive Role where
  | user
  | admin
  deriving DecidableEq, Repr

/-- An authenticated caller: req.user after the protect middleware. -/
structure AuthUser where
  id : Nat
  role : Role
  deriving DecidableEq, Repr

/-- A document record, from the PDF schema in src/unnamed/part_000.
Only the fields the routes read or write are kept; user is the owner id. -/
structure Pdf where
  id : Nat
  title : String
  description : String
  filename : String
  originalName : String
  filePath : String
  fileSize : Nat
  mimeType : String
  user : Nat
  isPublic : Bool
  status : String
  accessCount : Nat
  lastAccessed : Nat
  deriving DecidableEq, Repr

/-- A JavaScript-like value for annotation content fields. -/
inductive CVal where
  | str : String → CVal
  | num : Rat → CVal
  | boolV : Bool → CVal
  | obj : List (String × CVal) → CVal

/-- A JS object as an association list of string keys. -/
abbrev JsObj : Type := List (String × CVal)

/-- Property lookup on a JS-like object: first entry with the key. -/
def jsLookup {V : Type} (o : List (String × V)) (k : String) : Option V :=
  (o.find? (fun p => p.1 == k)).map (fun p => p.2)

/-- The JS object spread: in a JS object literal written as the spread of a
followed by the spread of b, a key takes the value from b when b has it and
from a otherwise. Encoded as the entries of a not overridden by b, then b. -/
def jsSpread {V : Type} (a b : List (String × V)) : List (String × V) :=
  a.filter (fun p => (jsLookup b p.1).isNone) ++ b

/-- A reply subdocument, from the replies array of the annotation schema. -/
structure Reply where
  user : Nat
  text : String
  createdAt : Nat

/-- The annotation type enum of src/models/Annotation.js. -/
inductive AnnType where
  | highlight
  | text
  | rectangle
  | circle
  | arrow
  | freehand
  deriving DecidableEq, Repr

/-- An annotation record, from the schema in src/models/Annotation.js.
The content block is kept as a JS object so that the shallow-merge update
and the schema style defaults can be stated about it. -/
structure Ann where
  id : Nat
  pdf : Nat
  user : Nat
  page : Nat
  type : AnnType
  content : JsObj
  isPrivate : Bool
  isResolved : Bool
  tags : List String
  replies : List Reply

/-- The durable store: the PDF collection and the annotation collection. -/
structure DB where
  pdfs : List Pdf
  annotations : List Ann

/-- Access check of GET /api/pdfs/:id (src/routes/pdfs.js):
pdf.isPublic or the request carries a user whose id is the owner id. -/
def hasAccessPdfDetail (pdf : Pdf) (viewer : Option AuthUser) : Bool :=
  pdf.isPublic ||
    (match viewer with
     | some u => pdf.user == u.id
     | none => false)

/-- Access check of GET /api/pdfs/:id/file (src/routes/pdfs.js):
textually the same condition as the detail route. -/
def hasAccessPdfFile (pdf : Pdf) (viewer : Option AuthUser) : Bool :=
  pdf.isPublic ||
    (match viewer with
     | some u => pdf.user == u.id
     | none => false)

/-- C1: the document-read check grants access if and only if the document
is public or the viewer is authenticated with the owner id; the file route
uses the same predicate; an anonymous viewer passes only via isPublic. -/
theorem canView_iff_public_or_owner (pdf : Pdf) (viewer : Option AuthUser) :
    (hasAccessPdfDetail pdf viewer = true ↔
      pdf.isPublic = true ∨ ∃ u, viewer = some u ∧ u.id = pdf.user) ∧
    hasAccessPdfFile pdf viewer = hasAccessPdfDetail pdf viewer ∧
    (hasAccessPdfDetail pdf none = true ↔ pdf.isPublic = true) := by
  refine ⟨?_, rfl, ?_⟩
  · cases viewer with
    | none => simp [hasAccessPdfDetail]
    | some u =>
      simp only [hasAccessPdfDetail, Bool.or_eq_true, beq_iff_eq, Option.some.injEq]
      constructor
      · rintro (h | h)
        · exact Or.inl h
        · exact Or.inr ⟨u, rfl, h.symm⟩
      · rintro (h | ⟨u', hu, hid⟩)
        · exact Or.inl h
        · cases hu; exact Or.inr hid.symm
  · simp [hasAccessPdfDetail]

/-- GET /api/pdfs/:id (src/routes/pdfs.js). Takes the looked-up document,
its populated annotations, the optional caller, and the current time; on an
authorized hit it increments accessCount, sets lastAccessed, saves, and
returns the annotations filtered to non-private ones unless the caller is
the owner. Result: status, the stored document afterwards, the returned
annotation list. -/
def getPdfDetailRoute (pdfLookup : Option Pdf) (anns : List Ann)
    (viewer : Option AuthUser) (now : Nat) : Nat × Option Pdf × List Ann :=
  match pdfLookup with
  | none => (404, none, [])
  | some pdf =>
    if hasAccessPdfDetail pdf viewer then
      let pdf2 := { pdf with accessCount := pdf.accessCount + 1, lastAccessed := now }
      let visible :=
        match viewer with
        | none => anns.filter (fun a => !a.isPrivate)
        | some u =>
          if pdf.user == u.id then anns
          else anns.filter (fun a => !a.isPrivate)
      (200, some pdf2, visible)
    else (403, some pdf, [])

/-- GET /api/pdfs/:id/file (src/routes/pdfs.js). After the access check it
only checks file existence, sets headers and streams; the stored document
is never modified. Result: status and the stored document afterwards. -/
def getPdfFileRoute (pdfLookup : Option Pdf) (viewer : Option AuthUser)
    (fsExists : String → Bool) : Nat × Option Pdf :=
  match pdfLookup with
  | none => (404, none)
  | some pdf =>
    if hasAccessPdfFile pdf viewer then
      if fsExists pdf.filePath then (200, some pdf)
      else (404, some pdf)
    else (403, some pdf)

/-- C4 (amended): a successful authorized detail read increments the access
counter by one and sets last-accessed to now; a denied detail read leaves
the stored document unchanged; the file-stream route never modifies the
stored document, successful or not. -/
theorem touch_access_detail_only (pdf : Pdf) (anns : List Ann)
    (viewer : Option AuthUser) (now : Nat) (fsExists : String → Bool) :
    (hasAccessPdfDetail pdf viewer = true →
      (getPdfDetailRoute (some pdf) anns viewer now).1 = 200 ∧
      (getPdfDetailRoute (some pdf) anns viewer now).2.1 =
        some { pdf with accessCount := pdf.accessCount + 1, lastAccessed := now }) ∧
    (hasAccessPdfDetail pdf viewer = false →
      (getPdfDetailRoute (some pdf) anns viewer now).1 = 403 ∧
      (getPdfDetailRoute (some pdf) anns viewer now).2.1 = some pdf) ∧
    (getPdfFileRoute (some pdf) viewer fsExists).2 = some pdf := by
  refine ⟨?_, ?_, ?_⟩
  · intro h
    simp [getPdfDetailRoute, h]
  · intro h
    simp [getPdfDetailRoute, h]
  · unfold getPdfFileRoute
    by_cases h : hasAccessPdfFile pdf viewer = true
    · simp [h]
      by_cases h2 : fsExists pdf.filePath = true <;> simp [h2]
    · simp [h]

/-- Witness for the C4 theorem at a concrete public document. -/
def c4pdf : Pdf :=
  { id := 1, title := "t", description := "", filename := "f.pdf",
    originalName := "f.pdf", filePath := "uploads/pdfs/f.pdf",
    fileSize := 3, mimeType := "application/pdf", user := 1,
    isPublic := true, status := "ready", accessCount := 0, lastAccessed := 0 }

/-- C4 witness: the amended statement instantiated at a concrete public
document read anonymously. -/
theorem touch_access_detail_only_witness :
    (hasAccessPdfDetail c4pdf none = true →
      (getPdfDetailRoute (some c4pdf) [] none 7).1 = 200 ∧
      (getPdfDetailRoute (some c4pdf) [] none 7).2.1 =
        some { c4pdf with accessCount := c4pdf.accessCount + 1, lastAccessed := 7 }) ∧
    (hasAccessPdfDetail c4pdf none = false →
      (getPdfDetailRoute (some c4pdf) [] none 7).1 = 403 ∧
      (getPdfDetailRoute (some c4pdf) [] none 7).2.1 = some c4pdf) ∧
    (getPdfFileRoute (some c4pdf) none (fun _ => true)).2 = some c4pdf :=
  touch_access_detail_only c4pdf [] none 7 (fun _ => true)

/-- C4 counterexample: an anonymous read of the file stream of a public
document succeeds with 200 yet returns the stored document unchanged: its
access counter stays 0 where the claim demands it become 1. -/
theorem file_stream_does_not_touch_access :
    (getPdfFileRoute (some c4pdf) none (fun _ => true)).1 = 200 ∧
    (getPdfFileRoute (some c4pdf) none (fun _ => true)).2 = some c4pdf ∧
    ((getPdfFileRoute (some c4pdf) none (fun _ => true)).2.map Pdf.accessCount) ≠
      some (c4pdf.accessCount + 1) := by
  refine ⟨rfl, rfl, ?_⟩
  decide

/-- The annotations referencing a document id. -/
def annsReferencing (db : DB) (pdfId : Nat) : List Ann :=
  db.annotations.filter (fun a => a.pdf == pdfId)

/-- Total number of replies carried by annotations referencing the id. -/
def repliesReferencing (db : DB) (pdfId : Nat) : Nat :=
  ((annsReferencing db pdfId).map (fun a => a.replies.length)).sum

/-- One primitive store operation of the DELETE /api/pdfs/:id handler. -/
inductive DelStep where
  | deleteAnns : Nat → DelStep
  | unlinkFile : String → DelStep
  | deletePdfRecord : Nat → DelStep

/-- Effect of one delete step on the durable store. Unlinking the blob is
filesystem-only and leaves the structured store untouched. -/
def applyDelStep (db : DB) : DelStep → DB
  | DelStep.deleteAnns pid =>
    { db with annotations := db.annotations.filter (fun a => !(a.pdf == pid)) }
  | DelStep.unlinkFile _ => db
  | DelStep.deletePdfRecord pid =>
    { db with pdfs := db.pdfs.filter (fun p => !(p.id == pid)) }

/-- The store operations of DELETE /api/pdfs/:id in source order:
Annotation.deleteMany, fs.unlink, PDF.findByIdAndDelete. -/
def deletePdfSteps (pdf : Pdf) : List DelStep :=
  [DelStep.deleteAnns pdf.id, DelStep.unlinkFile pdf.filePath,
   DelStep.deletePdfRecord pdf.id]

/-- All intermediate states of a step sequence, initial state included. -/
def execDelStates (db : DB) : List DelStep → List DB
  | [] => [db]
  | s :: rest => db :: execDelStates (applyDelStep db s) rest

/-- DELETE /api/pdfs/:id (src/routes/pdfs.js): 404 on lookup miss, 403
unless owner or admin, otherwise the three delete steps run in order. -/
def deletePdfRoute (db : DB) (pdfId : Nat) (actor : AuthUser) : Nat × DB :=
  match db.pdfs.find? (fun p => p.id == pdfId) with
  | none => (404, db)
  | some pdf =>
    if !(pdf.user == actor.id) && !(actor.role == Role.admin) then (403, db)
    else (200, (deletePdfSteps pdf).foldl applyDelStep db)

/-- Filtering to a key after filtering that key away yields nothing. -/
theorem filter_keep_of_drop (l : List Ann) (pid : Nat) :
    (l.filter (fun a => !(a.pdf == pid))).filter (fun a => a.pdf == pid) = [] := by
  induction l with
  | nil => rfl
  | cons a t ih =>
    by_cases h : a.pdf == pid
    · simp only [List.filter_cons, h, Bool.not_true, Bool.false_eq_true,
        if_false, reduceIte]
      exact ih
    · simp only [List.filter_cons, h, Bool.not_false, if_true, reduceIte,
        Bool.false_eq_true]
      simp [List.filter_cons, h, ih]

/-- C2: a successful document delete returns 200, leaves zero annotations
and zero replies referencing the document id, and at no intermediate state
of the step sequence is the document record gone while an annotation still
references it (the cascade strictly precedes the record removal). -/
theorem delete_pdf_cascades (db : DB) (pdfId : Nat) (actor : AuthUser) (pdf : Pdf)
    (hfind : db.pdfs.find? (fun p => p.id == pdfId) = some pdf)
    (hauth : pdf.user = actor.id ∨ actor.role = Role.admin) :
    deletePdfRoute db pdfId actor =
      (200, (deletePdfSteps pdf).foldl applyDelStep db) ∧
    annsReferencing ((deletePdfSteps pdf).foldl applyDelStep db) pdfId = [] ∧
    repliesReferencing ((deletePdfSteps pdf).foldl applyDelStep db) pdfId = 0 ∧
    (∀ s ∈ execDelStates db (deletePdfSteps pdf),
      (∀ p ∈ s.pdfs, p.id ≠ pdfId) → annsReferencing s pdfId = []) := by
  have hpid : pdf.id = pdfId := by
    have := List.find?_some hfind
    simpa [beq_iff_eq] using this
  have hmem : pdf ∈ db.pdfs := List.mem_of_find?_eq_some hfind
  have hguard : (!(pdf.user == actor.id) && !(actor.role == Role.admin)) = false := by
    rcases hauth with h | h <;> simp [h]
  have hroute : deletePdfRoute db pdfId actor =
      (200, (deletePdfSteps pdf).foldl applyDelStep db) := by
    simp [deletePdfRoute, hfind, hguard]
  have hcascade :
      annsReferencing ((deletePdfSteps pdf).foldl applyDelStep db) pdfId = [] := by
    simp only [deletePdfSteps, List.foldl, applyDelStep, annsReferencing, hpid]
    exact filter_keep_of_drop db.annotations pdfId
  refine ⟨hroute, hcascade, ?_, ?_⟩
  · simp [repliesReferencing, hcascade]
  · intro s hs habsent
    simp only [deletePdfSteps, execDelStates, applyDelStep, List.mem_cons,
      List.not_mem_nil, or_false] at hs
    rcases hs with h | h | h | h
    · exfalso; exact habsent pdf (h ▸ hmem) hpid
    · subst h
      simp only [annsReferencing, hpid]
      exact filter_keep_of_drop db.annotations pdfId
    · subst h
      simp only [annsReferencing, hpid]
      exact filter_keep_of_drop db.annotations pdfId
    · subst h
      simp only [annsReferencing, hpid]
      exact filter_keep_of_drop db.annotations pdfId

/-- Concrete store for the C2 witness: one private-owner document with one
annotation carrying one reply. -/
def c2pdf : Pdf :=
  { id := 1, title := "doc", description := "", filename := "a.pdf",
    originalName := "a.pdf", filePath := "uploads/pdfs/a.pdf",
    fileSize := 10, mimeType := "application/pdf", user := 1,
    isPublic := false, status := "ready", accessCount := 0, lastAccessed := 0 }

/-- Concrete annotation for the C2 witness. -/
def c2ann : Ann :=
  { id := 5, pdf := 1, user := 2, page := 1, type := AnnType.highlight,
    content := [], isPrivate := false, isResolved := false, tags := [],
    replies := [{ user := 3, text := "hi", createdAt := 0 }] }

/-- Concrete store for the C2 witness. -/
def c2db : DB := { pdfs := [c2pdf], annotations := [c2ann] }

/-- C2 witness: the cascade theorem applied to the one-document store with
its owner as the caller. -/
theorem delete_pdf_cascades_witness :
    deletePdfRoute c2db 1 { id := 1, role := Role.user } =
      (200, (deletePdfSteps c2pdf).foldl applyDelStep c2db) ∧
    annsReferencing ((deletePdfSteps c2pdf).foldl applyDelStep c2db) 1 = [] ∧
    repliesReferencing ((deletePdfSteps c2pdf).foldl applyDelStep c2db) 1 = 0 ∧
    (∀ s ∈ execDelStates c2db (deletePdfSteps c2pdf),
      (∀ p ∈ s.pdfs, p.id ≠ 1) → annsReferencing s 1 = []) :=
  delete_pdf_cascades c2db 1 { id := 1, role := Role.user } c2pdf rfl
    (Or.inl rfl)

/-- A JavaScript value as it arrives in a multipart form body field. -/
inductive JsVal where
  | undef
  | nullV
  | str : String → JsVal
  | boolV : Bool → JsVal
  deriving DecidableEq, Repr

/-- JS truthiness for the values above. -/
def jsTruthy : JsVal → Bool
  | JsVal.undef => false
  | JsVal.nullV => false
  | JsVal.str s => !(s == "")
  | JsVal.boolV b => b

/-- The JS logical-or: the left operand when truthy, else the right. -/
def jsOr (a b : JsVal) : JsVal := if jsTruthy a then a else b

/-- Mongoose boolean cast of a provided value; none is a cast error. -/
def mongooseCastBool : JsVal → Option Bool
  | JsVal.boolV b => some b
  | JsVal.str "true" => some true
  | JsVal.str "false" => some false
  | JsVal.str "1" => some true
  | JsVal.str "0" => some false
  | _ => none

/-- The schema default of the isPublic path in the PDF schema
(src/unnamed/part_000): false. Unused by create because the upload route
always supplies an explicit value. -/
def pdfSchemaIsPublicDefault : Bool := false

/-- The file produced by multer for the single uploaded part. -/
structure UploadFile where
  originalname : String
  filename : String
  path : String
  size : Nat
  mimetype : String
  deriving DecidableEq, Repr

/-- The size limit of src/middleware/upload.js: 50 * 1024 * 1024 bytes. -/
def maxFileSizeDefault : Nat := 50 * 1024 * 1024

/-- The multer errors the middleware distinguishes. -/
inductive MulterErr where
  | limitFileSize
  | limitUnexpectedFile
  | onlyPdfAllowed
  deriving DecidableEq, Repr

/-- upload.single acceptance (src/middleware/upload.js): the fileFilter
rejects a non-PDF mimetype; the limits reject a byte count above maxSize. -/
def multerSinglePdf (file : UploadFile) (maxSize : Nat) :
    Except MulterErr UploadFile :=
  if !(file.mimetype == "application/pdf") then Except.error MulterErr.onlyPdfAllowed
  else if file.size > maxSize then Except.error MulterErr.limitFileSize
  else Except.ok file

/-- handleMulterError (src/middleware/upload.js): every branch answers
with HTTP status 400. -/
def handleMulterErrorStatus : MulterErr → Nat
  | MulterErr.limitFileSize => 400
  | MulterErr.limitUnexpectedFile => 400
  | MulterErr.onlyPdfAllowed => 400

/-- Body fields of POST /api/pdfs/upload. -/
structure UploadBody where
  title : Option String
  description : Option String
  isPublic : JsVal
  tags : Option (List String)

/-- POST /api/pdfs/upload (src/routes/pdfs.js): multer first; on success
PDF.create with isPublic set from the expression isPublic or-else the
string true, cast by the schema; a cast failure surfaces as 500 through
next(error) and creates nothing. -/
def uploadPdfRoute (db : DB) (actor : AuthUser) (file : UploadFile)
    (body : UploadBody) (newId : Nat) : Nat × DB :=
  match multerSinglePdf file maxFileSizeDefault with
  | Except.error e => (handleMulterErrorStatus e, db)
  | Except.ok f =>
    match mongooseCastBool (jsOr body.isPublic (JsVal.str "true")) with
    | none => (500, db)
    | some pub =>
      let pdf : Pdf :=
        { id := newId
          title := body.title.getD f.originalname
          description := body.description.getD ""
          filename := f.filename
          originalName := f.originalname
          filePath := f.path
          fileSize := f.size
          mimeType := f.mimetype
          user := actor.id
          isPublic := pub
          status := "ready"
          accessCount := 0
          lastAccessed := 0 }
      (201, { db with pdfs := db.pdfs ++ [pdf] })

/-- C3 (amended): an upload whose byte count exceeds the configured
maximum is rejected with HTTP status 400 — not 413 — and the store is
unchanged, so no document is created. -/
theorem upload_oversize_rejected_400 (db : DB) (actor : AuthUser)
    (file : UploadFile) (body : UploadBody) (newId : Nat)
    (hsize : file.size > maxFileSizeDefault)
    (hmime : file.mimetype = "application/pdf") :
    uploadPdfRoute db actor file body newId = (400, db) := by
  simp [uploadPdfRoute, multerSinglePdf, hmime, hsize, handleMulterErrorStatus]

/-- Concrete oversized upload for C3: one byte above the 50 MiB limit. -/
def c3file : UploadFile :=
  { originalname := "big.pdf", filename := "u1.pdf",
    path := "uploads/pdfs/u1.pdf", size := 50 * 1024 * 1024 + 1,
    mimetype := "application/pdf" }

/-- Concrete body for C3. -/
def c3body : UploadBody :=
  { title := none, description := none, isPublic := JsVal.undef, tags := none }

/-- Concrete empty store for C3. -/
def c3db : DB := { pdfs := [], annotations := [] }

/-- C3 witness: the amended statement at the concrete oversized file. -/
theorem upload_oversize_rejected_400_witness :
    uploadPdfRoute c3db { id := 1, role := Role.user } c3file c3body 7 =
      (400, c3db) :=
  upload_oversize_rejected_400 c3db { id := 1, role := Role.user } c3file
    c3body 7 (by decide) rfl

/-- C3 counterexample: the oversized upload answers 400, not the 413 the
claim states, and leaves the store unchanged. -/
theorem upload_oversize_not_413 :
    (uploadPdfRoute c3db { id := 1, role := Role.user } c3file c3body 7).1 = 400 ∧
    (uploadPdfRoute c3db { id := 1, role := Role.user } c3file c3body 7).1 ≠ 413 ∧
    (uploadPdfRoute c3db { id := 1, role := Role.user } c3file c3body 7).2 = c3db := by
  refine ⟨?_, ?_, ?_⟩
  · rfl
  · intro h
    simp [uploadPdfRoute, multerSinglePdf, c3file, maxFileSizeDefault,
      handleMulterErrorStatus] at h
  · rfl

/-- C9: when the isPublic field is omitted from the multipart body, the
upload route creates the document with isPublic true, although the schema
default for isPublic is false. -/
theorem upload_isPublic_defaults_true (db : DB) (actor : AuthUser)
    (file : UploadFile) (body : UploadBody) (newId : Nat)
    (hmime : file.mimetype = "application/pdf")
    (hsize : file.size ≤ maxFileSizeDefault)
    (hpub : body.isPublic = JsVal.undef) :
    (uploadPdfRoute db actor file body newId).1 = 201 ∧
    ((uploadPdfRoute db actor file body newId).2.pdfs.getLast?).map Pdf.isPublic =
      some true ∧
    pdfSchemaIsPublicDefault = false := by
  have hnot : ¬ file.size > maxFileSizeDefault := by omega
  refine ⟨?_, ?_, rfl⟩ <;>
    simp [uploadPdfRoute, multerSinglePdf, hmime, hnot, hpub, jsOr, jsTruthy,
      mongooseCastBool, List.getLast?_concat]

/-- C9 witness: a valid small upload with the isPublic field omitted. -/
theorem upload_isPublic_defaults_true_witness :
    (uploadPdfRoute c3db { id := 1, role := Role.user }
      { originalname := "a.pdf", filename := "u2.pdf",
        path := "uploads/pdfs/u2.pdf", size := 100,
        mimetype := "application/pdf" } c3body 9).1 = 201 ∧
    ((uploadPdfRoute c3db { id := 1, role := Role.user }
      { originalname := "a.pdf", filename := "u2.pdf",
        path := "uploads/pdfs/u2.pdf", size := 100,
        mimetype := "application/pdf" } c3body 9).2.pdfs.getLast?).map
        Pdf.isPublic = some true ∧
    pdfSchemaIsPublicDefault = false :=
  upload_isPublic_defaults_true c3db { id := 1, role := Role.user }
    { originalname := "a.pdf", filename := "u2.pdf",
      path := "uploads/pdfs/u2.pdf", size := 100,
      mimetype := "application/pdf" } c3body 9 rfl (by decide) rfl

/-- The optional query filters of GET /api/annotations/pdf/:pdfId. -/
structure AnnQueryFilters where
  page : Option Nat
  type : Option AnnType
  isResolved : Option Bool

/-- No query filters supplied. -/
def noFilters : AnnQueryFilters := { page := none, type := none, isResolved := none }

/-- The optional query constraints as a predicate on one annotation. -/
def annMatchesFilters (f : AnnQueryFilters) (a : Ann) : Bool :=
  (match f.page with
   | some p => a.page == p
   | none => true) &&
  (match f.type with
   | some t => a.type == t
   | none => true) &&
  (match f.isResolved with
   | some r => a.isResolved == r
   | none => true)

/-- GET /api/annotations/pdf/:pdfId (src/routes/pdfs.js, annotation
router; behind protect, so the caller is authenticated): 404 on missing
document, 403 unless owner or public, otherwise the query selects the
annotations of the document, restricted to non-private ones when the
caller is not the owner, plus the optional filters. -/
def listAnnsForPdfRoute (db : DB) (pdfId : Nat) (actor : AuthUser)
    (f : AnnQueryFilters) : Nat × List Ann :=
  match db.pdfs.find? (fun p => p.id == pdfId) with
  | none => (404, [])
  | some pdf =>
    if !(pdf.user == actor.id || pdf.isPublic) then (403, [])
    else
      (200, db.annotations.filter (fun a =>
        a.pdf == pdfId && (pdf.user == actor.id || !a.isPrivate) &&
          annMatchesFilters f a))

/-- C5: per-item visibility of annotation listings. The owner sees every
annotation of the document; an authenticated non-owner with read access
(the document is public) sees exactly the non-private ones; an anonymous
viewer of a public document obtains, through the document-detail route,
exactly the non-private ones. -/
theorem annotation_listing_visibility (db : DB) (pdf : Pdf) (actor : AuthUser)
    (hfind : db.pdfs.find? (fun p => p.id == pdf.id) = some pdf) :
    (pdf.user = actor.id →
      ∀ a, a ∈ (listAnnsForPdfRoute db pdf.id actor noFilters).2 ↔
        a ∈ db.annotations ∧ a.pdf = pdf.id) ∧
    (pdf.user ≠ actor.id → pdf.isPublic = true →
      ∀ a, a ∈ (listAnnsForPdfRoute db pdf.id actor noFilters).2 ↔
        a ∈ db.annotations ∧ a.pdf = pdf.id ∧ a.isPrivate = false) ∧
    (pdf.isPublic = true → ∀ anns now,
      (getPdfDetailRoute (some pdf) anns none now).1 = 200 ∧
      ∀ a, a ∈ (getPdfDetailRoute (some pdf) anns none now).2.2 ↔
        a ∈ anns ∧ a.isPrivate = false) := by
  refine ⟨?_, ?_, ?_⟩
  · intro howner a
    simp [listAnnsForPdfRoute, hfind, howner, noFilters, annMatchesFilters,
      List.mem_filter, beq_iff_eq]
  · intro hnotowner hpub a
    have hbeq : (pdf.user == actor.id) = false := by
      simp [beq_iff_eq, hnotowner]
    simp [listAnnsForPdfRoute, hfind, hbeq, hpub, noFilters, annMatchesFilters,
      List.mem_filter, beq_iff_eq, and_assoc]
  · intro hpub anns now
    constructor
    · simp [getPdfDetailRoute, hasAccessPdfDetail, hpub]
    · intro a
      simp [getPdfDetailRoute, hasAccessPdfDetail, hpub, List.mem_filter]

/-- Concrete public document for the C5 witness, owned by user 1. -/
def c5pdf : Pdf :=
  { id := 3, title := "p", description := "", filename := "p.pdf",
    originalName := "p.pdf", filePath := "uploads/pdfs/p.pdf",
    fileSize := 4, mimeType := "application/pdf", user := 1,
    isPublic := true, status := "ready", accessCount := 0, lastAccessed := 0 }

/-- Concrete store for the C5 witness: one private and one public
annotation on the document. -/
def c5db : DB :=
  { pdfs := [c5pdf],
    annotations :=
      [{ id := 10, pdf := 3, user := 1, page := 1, type := AnnType.text,
         content := [], isPrivate := true, isResolved := false, tags := [],
         replies := [] },
       { id := 11, pdf := 3, user := 2, page := 1, type := AnnType.highlight,
         content := [], isPrivate := false, isResolved := false, tags := [],
         replies := [] }] }

/-- C5 witness: the visibility theorem applied to the concrete store with
the owner as the caller of the listing route. -/
theorem annotation_listing_visibility_witness :
    (c5pdf.user = 1 →
      ∀ a, a ∈ (listAnnsForPdfRoute c5db c5pdf.id { id := 1, role := Role.user }
          noFilters).2 ↔ a ∈ c5db.annotations ∧ a.pdf = c5pdf.id) ∧
    (c5pdf.user ≠ 1 → c5pdf.isPublic = true →
      ∀ a, a ∈ (listAnnsForPdfRoute c5db c5pdf.id { id := 1, role := Role.user }
          noFilters).2 ↔
        a ∈ c5db.annotations ∧ a.pdf = c5pdf.id ∧ a.isPrivate = false) ∧
    (c5pdf.isPublic = true → ∀ anns now,
      (getPdfDetailRoute (some c5pdf) anns none now).1 = 200 ∧
      ∀ a, a ∈ (getPdfDetailRoute (some c5pdf) anns none now).2.2 ↔
        a ∈ anns ∧ a.isPrivate = false) :=
  annotation_listing_visibility c5db c5pdf { id := 1, role := Role.user } rfl

/-- Lookup in a cons object: the head entry wins when its key matches. -/
theorem jsLookup_cons {V : Type} (p : String × V) (t : List (String × V))
    (k : String) :
    jsLookup (p :: t) k = if p.1 == k then some p.2 else jsLookup t k := by
  by_cases h : (p.1 == k) = true <;> simp [jsLookup, List.find?_cons, h]

/-- Lookup after the JS spread: a key present in the patch takes the patch
value; a key absent from the patch keeps the value of the old object. -/
theorem jsLookup_jsSpread {V : Type} (a b : List (String × V)) (k : String) :
    jsLookup (jsSpread a b) k = Option.or (jsLookup b k) (jsLookup a k) := by
  induction a with
  | nil =>
    simp only [jsSpread, List.filter_nil, List.nil_append]
    cases h : jsLookup b k <;> rfl
  | cons p t ih =>
    cases hpb : jsLookup b p.1 with
    | some w =>
      have hfilter : jsSpread (p :: t) b = jsSpread t b := by
        simp [jsSpread, List.filter_cons, hpb]
      rw [hfilter, ih]
      cases hbk : jsLookup b k with
      | some v => rfl
      | none =>
        by_cases hk : p.1 = k
        · rw [hk] at hpb
          rw [hpb] at hbk
          exact absurd hbk (by simp)
        · have hne : (p.1 == k) = false := by
            simp [hk]
          rw [jsLookup_cons, hne]
          simp
    | none =>
      have hfilter : jsSpread (p :: t) b = p :: jsSpread t b := by
        simp [jsSpread, List.filter_cons, hpb]
      rw [hfilter, jsLookup_cons, jsLookup_cons]
      by_cases hk : p.1 = k
      · have hbk : jsLookup b k = none := hk ▸ hpb
        simp [hk, hbk]
      · have hne : (p.1 == k) = false := by
          simp [hk]
        rw [hne]
        simp only [Bool.false_eq_true, if_false, ih]

/-- Body fields of PUT /api/annotations/:id. -/
structure AnnUpdateBody where
  content : Option JsObj
  isPrivate : Option Bool
  isResolved : Option Bool
  tags : Option (List String)

/-- The update-field application of PUT /api/annotations/:id: content is
merged by the JS spread of the old content and the patch; the boolean and
tag fields are replaced when supplied. -/
def annUpdateApply (a : Ann) (body : AnnUpdateBody) : Ann :=
  let a1 :=
    match body.content with
    | some c => { a with content := jsSpread a.content c }
    | none => a
  let a2 :=
    match body.isPrivate with
    | some b => { a1 with isPrivate := b }
    | none => a1
  let a3 :=
    match body.isResolved with
    | some b => { a2 with isResolved := b }
    | none => a2
  match body.tags with
  | some t => { a3 with tags := t }
  | none => a3

/-- PUT /api/annotations/:id (src/routes/pdfs.js, annotation router):
404 on lookup miss; 403 unless the caller is the author of the
annotation; otherwise the update fields are applied. -/
def annUpdateRoute (annLookup : Option Ann) (actor : AuthUser)
    (body : AnnUpdateBody) : Nat × Option Ann :=
  match annLookup with
  | none => (404, none)
  | some a =>
    if !(a.user == actor.id) then (403, some a)
    else (200, some (annUpdateApply a body))

/-- DELETE /api/annotations/:id (src/routes/pdfs.js, annotation router):
404 on lookup miss; 403 unless the caller is the author or an admin;
otherwise the record is removed. -/
def annDeleteRoute (annLookup : Option Ann) (actor : AuthUser) :
    Nat × Option Ann :=
  match annLookup with
  | none => (404, none)
  | some a =>
    if !(a.user == actor.id) && !(actor.role == Role.admin) then (403, some a)
    else (200, none)

/-- The content field after applying the update body. -/
theorem annUpdateApply_content (a : Ann) (body : AnnUpdateBody) (c : JsObj)
    (hc : body.content = some c) :
    (annUpdateApply a body).content = jsSpread a.content c := by
  cases hp : body.isPrivate <;> cases hr : body.isResolved <;>
    cases ht : body.tags <;> simp [annUpdateApply, hc, hp, hr, ht]

/-- C6: an authorized annotation update whose body carries a content
object stores the shallow merge of the old content with the patch: every
top-level key of the patch takes the patch value, and every top-level key
absent from the patch keeps its previous value. -/
theorem update_merges_content_shallow (a : Ann) (actor : AuthUser)
    (body : AnnUpdateBody) (c : JsObj)
    (hauthor : a.user = actor.id) (hc : body.content = some c) :
    annUpdateRoute (some a) actor body = (200, some (annUpdateApply a body)) ∧
    (∀ k v, jsLookup c k = some v →
      jsLookup (annUpdateApply a body).content k = some v) ∧
    (∀ k, jsLookup c k = none →
      jsLookup (annUpdateApply a body).content k = jsLookup a.content k) := by
  refine ⟨?_, ?_, ?_⟩
  · simp [annUpdateRoute, hauthor]
  · intro k v hv
    rw [annUpdateApply_content a body c hc, jsLookup_jsSpread, hv, Option.or_some]
  · intro k hnone
    rw [annUpdateApply_content a body c hc, jsLookup_jsSpread, hnone]
    rfl

/-- Concrete annotation for the C6 witness: content with a text entry and
a coordinates entry. -/
def c6ann : Ann :=
  { id := 20, pdf := 1, user := 4, page := 2, type := AnnType.text,
    content := [("text", CVal.str "old"), ("coordinates",
      CVal.obj [("x", CVal.num 1), ("y", CVal.num 2)])],
    isPrivate := false, isResolved := false, tags := [], replies := [] }

/-- Concrete update body for the C6 witness: patches only the text key. -/
def c6body : AnnUpdateBody :=
  { content := some [("text", CVal.str "new")], isPrivate := none,
    isResolved := none, tags := none }

/-- C6 witness: the merge theorem applied at the concrete annotation,
author caller and one-key patch. -/
theorem update_merges_content_shallow_witness :
    annUpdateRoute (some c6ann) { id := 4, role := Role.user } c6body =
      (200, some (annUpdateApply c6ann c6body)) ∧
    (∀ k v, jsLookup [("text", CVal.str "new")] k = some v →
      jsLookup (annUpdateApply c6ann c6body).content k = some v) ∧
    (∀ k, jsLookup [("text", CVal.str "new")] k = none →
      jsLookup (annUpdateApply c6ann c6body).content k =
        jsLookup c6ann.content k) :=
  update_merges_content_shallow c6ann { id := 4, role := Role.user } c6body
    [("text", CVal.str "new")] rfl rfl

/-- C8 (amended): deleting an annotation succeeds exactly for the author
or an admin, and any other caller is denied with 403 leaving the record
in place; updating an annotation succeeds exactly for the author — an
admin who is not the author is denied with 403 — and a denied update
leaves the record in place. -/
theorem annotation_mutation_authorization (a : Ann) (actor : AuthUser)
    (body : AnnUpdateBody) :
    ((annUpdateRoute (some a) actor body).1 = 200 ↔ a.user = actor.id) ∧
    (a.user ≠ actor.id → annUpdateRoute (some a) actor body = (403, some a)) ∧
    ((annDeleteRoute (some a) actor).1 = 200 ↔
      (a.user = actor.id ∨ actor.role = Role.admin)) ∧
    (a.user ≠ actor.id → actor.role ≠ Role.admin →
      annDeleteRoute (some a) actor = (403, some a)) := by
  refine ⟨?_, ?_, ?_, ?_⟩
  · by_cases h : a.user = actor.id <;> simp [annUpdateRoute, h]
  · intro h
    simp [annUpdateRoute, h]
  · by_cases h : a.user = actor.id
    · simp [annDeleteRoute, h]
    · by_cases hr : actor.role = Role.admin <;> simp [annDeleteRoute, h, hr]
  · intro h hr
    simp [annDeleteRoute, h, hr]

/-- C8 witness: the authorization theorem at a concrete annotation and a
non-author admin caller. -/
theorem annotation_mutation_authorization_witness :
    ((annUpdateRoute (some c6ann) { id := 9, role := Role.admin } c6body).1 = 200 ↔
      c6ann.user = 9) ∧
    (c6ann.user ≠ 9 →
      annUpdateRoute (some c6ann) { id := 9, role := Role.admin } c6body =
        (403, some c6ann)) ∧
    ((annDeleteRoute (some c6ann) { id := 9, role := Role.admin }).1 = 200 ↔
      (c6ann.user = 9 ∨ Role.admin = Role.admin)) ∧
    (c6ann.user ≠ 9 → Role.admin ≠ Role.admin →
      annDeleteRoute (some c6ann) { id := 9, role := Role.admin } =
        (403, some c6ann)) :=
  annotation_mutation_authorization c6ann { id := 9, role := Role.admin } c6body

/-- C8 counterexample: an admin who is not the author is denied the
update with 403 and the annotation is unchanged, where the claim states
an admin is permitted to update. -/
theorem admin_cannot_update_annotation :
    annUpdateRoute (some c6ann) { id := 9, role := Role.admin } c6body =
      (403, some c6ann) ∧
    (AuthUser.role { id := 9, role := Role.admin }) = Role.admin ∧
    c6ann.user ≠ 9 := by
  refine ⟨?_, rfl, by decide⟩
  simp [annUpdateRoute, c6ann]

/-- The style defaults of the annotation schema
(src/models/Annotation.js): color, opacity, strokeWidth, fontSize,
fontFamily. -/
def styleDefaults : JsObj :=
  [("color", CVal.str "#FFFF00"), ("opacity", CVal.num (1/2)),
   ("strokeWidth", CVal.num 2), ("fontSize", CVal.num 14),
   ("fontFamily", CVal.str "Arial")]

/-- Mongoose default application on the style sub-record: every default
whose key the supplied style lacks is materialized. -/
def applyStyleDefaults (style : JsObj) : JsObj :=
  style ++ styleDefaults.filter (fun d => (jsLookup style d.1).isNone)

/-- Mongoose default application on the content block: the style
sub-record receives its defaults, and is materialized from the defaults
alone when the body omits it entirely. -/
def applyContentDefaults (content : JsObj) : JsObj :=
  match jsLookup content "style" with
  | none => content ++ [("style", CVal.obj (applyStyleDefaults []))]
  | some (CVal.obj s) =>
    content.map (fun p =>
      if p.1 == "style" then (p.1, CVal.obj (applyStyleDefaults s)) else p)
  | some _ => content

/-- Body fields of POST /api/annotations. -/
structure AnnCreateBody where
  pdfId : Nat
  page : Nat
  type : AnnType
  content : JsObj
  isPrivate : Option Bool
  tags : Option (List String)

/-- POST /api/annotations (src/routes/pdfs.js, annotation router): 404 on
missing document, 403 unless owner or public, otherwise Annotation.create
stores the record with the schema defaults applied to content, isPrivate
or-else false, tags or-else empty. -/
def annCreateRoute (db : DB) (actor : AuthUser) (body : AnnCreateBody)
    (newId : Nat) : Nat × DB :=
  match db.pdfs.find? (fun p => p.id == body.pdfId) with
  | none => (404, db)
  | some pdf =>
    if !(pdf.user == actor.id || pdf.isPublic) then (403, db)
    else
      let a : Ann :=
        { id := newId, pdf := body.pdfId, user := actor.id,
          page := body.page, type := body.type,
          content := applyContentDefaults body.content,
          isPrivate := body.isPrivate.getD false, isResolved := false,
          tags := body.tags.getD [], replies := [] }
      (201, { db with annotations := db.annotations ++ [a] })

/-- Fetch an annotation by id from the store. -/
def annFindById (db : DB) (annId : Nat) : Option Ann :=
  db.annotations.find? (fun a => a.id == annId)

/-- The content supplied in the C7 round trip. -/
def c7content : JsObj :=
  [("text", CVal.str "note"),
   ("coordinates", CVal.obj [("x", CVal.num 10), ("y", CVal.num 20)])]

/-- Concrete store for C7: one public document and no annotations, so the
freshly created annotation is the one the fetch returns. -/
def c7db : DB := { pdfs := [c5pdf], annotations := [] }

/-- The C7 create request: content with text and coordinates, no style. -/
def c7body : AnnCreateBody :=
  { pdfId := 3, page := 1, type := AnnType.text, content := c7content,
    isPrivate := none, tags := none }

/-- C7: creating the annotation with content text note and coordinates
x 10 y 20 and no style, then fetching it by id, returns a content whose
supplied keys are preserved unchanged and whose style carries the
server-assigned defaults color #FFFF00 and opacity one half. -/
theorem annotation_create_roundtrip_defaults :
    (annCreateRoute c7db { id := 2, role := Role.user } c7body 42).1 = 201 ∧
    (annFindById (annCreateRoute c7db { id := 2, role := Role.user } c7body 42).2
        42).map Ann.content = some (applyContentDefaults c7content) ∧
    jsLookup (applyContentDefaults c7content) "text" = some (CVal.str "note") ∧
    jsLookup (applyContentDefaults c7content) "coordinates" =
      some (CVal.obj [("x", CVal.num 10), ("y", CVal.num 20)]) ∧
    jsLookup (applyContentDefaults c7content) "style" =
      some (CVal.obj styleDefaults) ∧
    jsLookup styleDefaults "color" = some (CVal.str "#FFFF00") ∧
    jsLookup styleDefaults "opacity" = some (CVal.num (1/2)) :=
  ⟨rfl, rfl, rfl, rfl, rfl, rfl, rfl⟩

/-- Whitespace as the JS string trim removes it, restricted to the common
ASCII whitespace characters. -/
def jsIsWhitespaceChar (c : Char) : Bool :=
  c == ' ' || c == '\t' || c == '\n' || c == '\r'

/-- An executable JS string trim: whitespace stripped from both ends. -/
def jsTrim (s : String) : String :=
  String.mk
    (((s.data.dropWhile jsIsWhitespaceChar).reverse.dropWhile
      jsIsWhitespaceChar).reverse)

/-- POST /api/annotations/:id/replies (src/routes/pdfs.js, annotation
router): 400 on empty trimmed text, 404 on missing annotation, then the
document access check; the branch denies with 403 when access fails or
the annotation is private, and only otherwise appends the trimmed reply.
A missing parent document would throw on property access and surface as
500 through the error handler, changing nothing. -/
def addReplyRoute (db : DB) (annId : Nat) (actor : AuthUser) (text : String)
    (now : Nat) : Nat × DB :=
  if (jsTrim text).length == 0 then (400, db)
  else
    match db.annotations.find? (fun a => a.id == annId) with
    | none => (404, db)
    | some a =>
      match db.pdfs.find? (fun p => p.id == a.pdf) with
      | none => (500, db)
      | some pdf =>
        if !(pdf.user == actor.id || pdf.isPublic) || a.isPrivate then (403, db)
        else
          (201, { db with annotations := db.annotations.map (fun x =>
            if x.id == annId then
              { x with replies := x.replies ++
                [{ user := actor.id, text := jsTrim text, createdAt := now }] }
            else x) })

/-- C10: adding a reply to a private annotation is denied with 403 for
every caller — the annotation author and the document owner included —
and the store, hence the reply list, is unchanged. -/
theorem private_annotation_reply_denied (db : DB) (annId : Nat)
    (actor : AuthUser) (text : String) (now : Nat) (a : Ann) (pdf : Pdf)
    (hfind : db.annotations.find? (fun x => x.id == annId) = some a)
    (hpdf : db.pdfs.find? (fun p => p.id == a.pdf) = some pdf)
    (hpriv : a.isPrivate = true)
    (htext : (jsTrim text).length ≠ 0) :
    addReplyRoute db annId actor text now = (403, db) := by
  have hguard : ((jsTrim text).length == 0) = false := by
    simp [htext]
  simp [addReplyRoute, hguard, hfind, hpdf, hpriv]

/-- Concrete store for the C10 witness: one private document whose owner
authored a private annotation on it. -/
def c10db : DB :=
  { pdfs := [c2pdf],
    annotations :=
      [{ id := 30, pdf := 1, user := 1, page := 1, type := AnnType.text,
         content := [], isPrivate := true, isResolved := false, tags := [],
         replies := [] }] }

/-- C10 witness: the denial theorem applied with the caller being both
the annotation author and the document owner. -/
theorem private_annotation_reply_denied_witness :
    addReplyRoute c10db 30 { id := 1, role := Role.user } "hello" 9 =
      (403, c10db) :=
  private_annotation_reply_denied c10db 30 { id := 1, role := Role.user }
    "hello" 9
    { id := 30, pdf := 1, user := 1, page := 1, type := AnnType.text,
      content := [], isPrivate := true, isResolved := false, tags := [],
      replies := [] }
    c2pdf rfl rfl rfl (by decide)
